import Mathlib

/-
Verification of the DataLoader fetch cache in docs/js/draft-value.js
(the Fetch Cache component of the specification).

The JavaScript module is embedded shallowly: the in-memory cache is an
explicit association list threaded through each call, the browser fetch
is a parameter mapping each URL to a Response, and the two awaited
decoders (resp.json() and resp.text()) are modelled by an executable
JSON reader and the identity on the body text.
-/

namespace FetchCache

/-- JavaScript values that JSON.parse can produce, with numbers restricted
to integers (every number appearing in the claims is an integer; floating
point is outside the embedding). -/
inductive JsonValue where
  | null : JsonValue
  | bool (b : Bool) : JsonValue
  | num (n : Int) : JsonValue
  | str (s : String) : JsonValue
  | arr (items : List JsonValue) : JsonValue
  | obj (fields : List (String × JsonValue)) : JsonValue

/-- A cache entry: either a structured value decoded from a JSON payload,
or the raw text payload of a non-JSON response. -/
inductive Entry where
  | structured (v : JsonValue) : Entry
  | text (s : String) : Entry

/-- JavaScript truthiness of a JSON value: null, false, 0 and the empty
string are falsy; arrays and objects are always truthy. -/
def JsonValue.truthy : JsonValue → Bool
  | .null => false
  | .bool b => b
  | .num n => decide (n ≠ 0)
  | .str s => decide (s ≠ "")
  | .arr _ => true
  | .obj _ => true

/-- JavaScript truthiness of a cache entry, as tested by the guard
if (cache[url]) in load. -/
def Entry.truthy : Entry → Bool
  | .structured v => v.truthy
  | .text s => decide (s ≠ "")

/-- The part of a fetch Response that load inspects: ok, status, the
content-type header (absent modelled as none) and the body text. -/
structure Response where
  ok : Bool
  status : Nat
  contentType : Option String
  body : String
deriving DecidableEq

/-- The two failure kinds of load: the explicit throw on a non-ok status
(carrying the url and the status, as the thrown message does), and the
decode failure raised by resp.json() on a malformed body. -/
inductive LoadError where
  | retrievalError (url : String) (status : Nat) : LoadError
  | decodeError (url : String) : LoadError
deriving DecidableEq

/-- Does the first list start with the second list?  Helper for the
substring test of String.prototype.includes. -/
def charListStartsWith : List Char → List Char → Bool
  | _, [] => true
  | [], _ :: _ => false
  | a :: as, b :: bs => a == b && charListStartsWith as bs

/-- Does the haystack contain the needle as a contiguous run? -/
def charListHasRun (needle : List Char) : List Char → Bool
  | [] => needle.isEmpty
  | c :: cs => charListStartsWith (c :: cs) needle || charListHasRun needle cs

/-- JavaScript hay.includes(needle) on strings. -/
def stringIncludes (hay needle : String) : Bool :=
  charListHasRun needle.toList hay.toList

/-! ### A model of JSON.parse

resp.json() is the platform JSON reader.  Modelled from the spec: decode
the body as a JSON document, failing on malformed input.  The reader
below covers null, booleans, integer numbers, strings with the common
escapes, arrays and objects; fraction and exponent parts of numbers and
unicode escapes are rejected (none of the claims involves them). -/

/-- Is the character JSON whitespace?  Tested by code point: space 32,
tab 9, line feed 10, carriage return 13. -/
def isJsonWs (c : Char) : Bool :=
  c.toNat == 32 || c.toNat == 9 || c.toNat == 10 || c.toNat == 13

/-- Skip JSON whitespace. -/
def skipWs : List Char → List Char
  | [] => []
  | c :: cs => if isJsonWs c then skipWs cs else c :: cs

/-- The character denoted by a single-character JSON escape: quote,
backslash and slash stand for themselves; n, t, r, b, f for the usual
control codes. -/
def escChar (c : Char) : Option Char :=
  if c == '"' || c == '\\' || c == '/' then some c
  else if c == 'n' then some (Char.ofNat 10)
  else if c == 't' then some (Char.ofNat 9)
  else if c == 'r' then some (Char.ofNat 13)
  else if c == 'b' then some (Char.ofNat 8)
  else if c == 'f' then some (Char.ofNat 12)
  else none

/-- Read the characters of a JSON string after its opening quote,
returning the decoded characters and the rest of the input. -/
def readStringChars : List Char → Option (List Char × List Char)
  | [] => none
  | '"' :: rest => some ([], rest)
  | '\\' :: rest =>
    match rest with
    | [] => none
    | e :: rest2 =>
      match escChar e with
      | some c => (readStringChars rest2).map (fun p => (c :: p.1, p.2))
      | none => none
  | c :: rest => (readStringChars rest).map (fun p => (c :: p.1, p.2))

/-- Is the character a decimal digit? -/
def isDigitCh (c : Char) : Bool := 48 ≤ c.toNat && c.toNat ≤ 57

/-- Consume a run of decimal digits, accumulating their value. -/
def takeDigits : List Char → Nat → Nat × List Char
  | c :: cs, acc =>
    if isDigitCh c then takeDigits cs (acc * 10 + (c.toNat - 48)) else (acc, c :: cs)
  | [], acc => (acc, [])

/-- Read an integer JSON number (optional minus and at least one digit). -/
def readNumber : List Char → Option (JsonValue × List Char)
  | '-' :: rest =>
    match rest with
    | c :: _ =>
      if isDigitCh c then
        let p := takeDigits rest 0
        some (.num (-(p.1 : Int)), p.2)
      else none
    | [] => none
  | c :: rest =>
    if isDigitCh c then
      let p := takeDigits (c :: rest) 0
      some (.num (p.1 : Int), p.2)
    else none
  | [] => none

/-- Strip a literal keyword from the front of the input when present. -/
def stripKeyword (kw cs : List Char) : Option (List Char) :=
  if charListStartsWith cs kw then some (cs.drop kw.length) else none

mutual

/-- Read one JSON value from the input, fuelled, dispatching on the
first significant character. -/
def readValue : Nat → List Char → Option (JsonValue × List Char)
  | 0, _ => none
  | fuel + 1, cs =>
    match skipWs cs with
    | [] => none
    | c :: rest =>
      if c == 'n' then
        (stripKeyword "ull".toList rest).map (fun r => (.null, r))
      else if c == 't' then
        (stripKeyword "rue".toList rest).map (fun r => (.bool true, r))
      else if c == 'f' then
        (stripKeyword "alse".toList rest).map (fun r => (.bool false, r))
      else if c == '"' then
        (readStringChars rest).map (fun p => (.str (String.mk p.1), p.2))
      else if c == '[' then
        (match skipWs rest with
         | ']' :: rest2 => some (.arr [], rest2)
         | rest2 => (readElements fuel rest2).map (fun p => (.arr p.1, p.2)))
      else if c == '{' then
        (match skipWs rest with
         | '}' :: rest2 => some (.obj [], rest2)
         | rest2 => (readMembers fuel rest2).map (fun p => (.obj p.1, p.2)))
      else
        readNumber (c :: rest)

/-- Read the comma-separated elements of a non-empty JSON array up to the
closing bracket. -/
def readElements : Nat → List Char → Option (List JsonValue × List Char)
  | 0, _ => none
  | fuel + 1, cs =>
    match readValue fuel cs with
    | none => none
    | some (v, rest) =>
      match skipWs rest with
      | ',' :: rest2 => (readElements fuel rest2).map (fun p => (v :: p.1, p.2))
      | ']' :: rest2 => some ([v], rest2)
      | _ => none

/-- Read the comma-separated members of a non-empty JSON object up to the
closing brace. -/
def readMembers : Nat → List Char → Option (List (String × JsonValue) × List Char)
  | 0, _ => none
  | fuel + 1, cs =>
    match skipWs cs with
    | '"' :: rest =>
      match readStringChars rest with
      | none => none
      | some (key, rest2) =>
        match skipWs rest2 with
        | ':' :: rest3 =>
          (match readValue fuel rest3 with
           | none => none
           | some (v, rest4) =>
             match skipWs rest4 with
             | ',' :: rest5 =>
               (readMembers fuel rest5).map (fun p => ((String.mk key, v) :: p.1, p.2))
             | '}' :: rest5 => some ([(String.mk key, v)], rest5)
             | _ => none)
        | _ => none
    | _ => none

end

/-- The JSON reader on a whole body: one value followed only by
whitespace, otherwise failure, mirroring that resp.json() rejects
trailing garbage and the empty body. -/
def jsonParse (s : String) : Option JsonValue :=
  match readValue (s.length + 1) s.toList with
  | some (v, rest) => if (skipWs rest).isEmpty then some v else none
  | none => none

/-! ### The loader

const cache is the process-wide mapping, embedded as an association
list whose head entry shadows older ones, so assignment is cons; fetch
is a parameter world : String to Response; a call is a pure function of
the cache before it, returning its result, the cache after it, and
whether it issued a retrieval. -/

/-- The process-wide cache: locators mapped to entries. -/
abbrev Cache := List (String × Entry)

/-- The raw mapping cache[url]: some entry when one is stored. -/
def cacheGet (c : Cache) (url : String) : Option Entry := c.lookup url

/-- The guard if (cache[url]): the stored entry when there is one and it
is truthy, none otherwise (absent entries read as undefined, falsy). -/
def cachedTruthy (c : Cache) (url : String) : Option Entry :=
  match cacheGet c url with
  | some e => if e.truthy then some e else none
  | none => none

/-- The expression the content-type header read, or-else the empty
string: an absent header reads as the empty string. -/
def headerContentType (resp : Response) : String :=
  match resp.contentType with
  | some s => s
  | none => ""

/-- The body of load after await fetch: throw on a non-ok status, decode
by content type (resp.json() when the declared content type includes
the substring json, resp.text() otherwise). -/
def decodeResp (url : String) (resp : Response) : Except LoadError Entry :=
  if resp.ok = false then
    .error (.retrievalError url resp.status)
  else if stringIncludes (headerContentType resp) "json" then
    match jsonParse resp.body with
    | some v => .ok (.structured v)
    | none => .error (.decodeError url)
  else
    .ok (.text resp.body)

/-- The resolution phase of one call: decode the response and, on
success, run cache[url] = data; on failure the cache is untouched
because the throw precedes the assignment. -/
def loadResolve (url : String) (resp : Response) (c : Cache) :
    Except LoadError Entry × Cache :=
  match decodeResp url resp with
  | .ok e => (.ok e, (url, e) :: c)
  | .error err => (.error err, c)

/-- The observable outcome of one call to load: its result, the cache it
leaves behind, and whether it issued a retrieval. -/
structure LoadResult where
  result : Except LoadError Entry
  cache : Cache
  fetched : Bool

/-- async function load(url) of DataLoader: return the cached value when
the guard if (cache[url]) passes, otherwise fetch, decode and store. -/
def load (world : String → Response) (c : Cache) (url : String) : LoadResult :=
  match cachedTruthy c url with
  | some e => ⟨.ok e, c, false⟩
  | none =>
    let p := loadResolve url (world url) c
    ⟨p.1, p.2, true⟩

/-- n sequential calls load(url) against a fixed world, each seeing the
cache the previous call left: the list of results, the final cache, and
the total number of retrievals issued. -/
def loadN (world : String → Response) (url : String) :
    Cache → Nat → List (Except LoadError Entry) × Cache × Nat
  | c, 0 => ([], c, 0)
  | c, n + 1 =>
    let r := load world c url
    let p := loadN world url r.cache n
    (r.result :: p.1, p.2.1, (if r.fetched then 1 else 0) + p.2.2)

/-- Outcome of two calls to load(url) racing on the event loop. -/
structure RaceOutcome where
  retA : Except LoadError Entry
  retB : Except LoadError Entry
  cache : Cache
  fetchCount : Nat

/-- Two simultaneous calls load(url), call A served by worldA and call B
by worldB, under the schedule in which both run their cache guard before
either retrieval resolves, B resolves first and A resolves last.  Each
resolution runs the post-fetch segment of load against the cache of the
moment; that segment never re-checks the cache, so the later write
overwrites the earlier one. -/
def raceFirstCalls (worldA worldB : String → Response) (c : Cache) (url : String) :
    RaceOutcome :=
  match cachedTruthy c url with
  | some e => ⟨.ok e, .ok e, c, 0⟩
  | none =>
    let pB := loadResolve url (worldB url) c
    let pA := loadResolve url (worldA url) pB.2
    ⟨pA.1, pB.1, pA.2, 2⟩

/-! ### The public surface of DataLoader -/

/-- loadJSON: (url) => load(url). -/
def loadJSON (world : String → Response) (c : Cache) (url : String) : LoadResult :=
  load world c url

/-- loadHTML: (url) => load(url). -/
def loadHTML (world : String → Response) (c : Cache) (url : String) : LoadResult :=
  load world c url

/-- getRankingsIndex: () => load(data/rankings.json). -/
def getRankingsIndex (world : String → Response) (c : Cache) : LoadResult :=
  load world c "data/rankings.json"

/-- getOwners: () => load(data/owners.json). -/
def getOwners (world : String → Response) (c : Cache) : LoadResult :=
  load world c "data/owners.json"

/-- getWeekData: (weekId) => load(template data/ weekId .json). -/
def getWeekData (world : String → Response) (c : Cache) (weekId : String) : LoadResult :=
  load world c ("data/" ++ weekId ++ ".json")

/-- getWeekHTML: (weekId) => load(template data/ weekId .html). -/
def getWeekHTML (world : String → Response) (c : Cache) (weekId : String) : LoadResult :=
  load world c ("data/" ++ weekId ++ ".html")

/-- getLookback: () => load(data/lookback.json). -/
def getLookback (world : String → Response) (c : Cache) : LoadResult :=
  load world c "data/lookback.json"

/-- getLookbackHTML: () => load(data/lookback_content.html). -/
def getLookbackHTML (world : String → Response) (c : Cache) : LoadResult :=
  load world c "data/lookback_content.html"

/-! ### Concrete worlds used in witnesses and counterexamples -/

/-- A world whose every response is a 404 failure. -/
def world404 : String → Response := fun _ => ⟨false, 404, none, ""⟩

/-- A world answering every request with a JSON object body mapping the
key a to the number 1. -/
def jsonWorld : String → Response :=
  fun _ => ⟨true, 200, some "application/json", "\x7b\"a\":1\x7d"⟩

/-- A world answering every request with an HTML paragraph body. -/
def htmlWorld : String → Response :=
  fun _ => ⟨true, 200, some "text/html", "<p>hi</p>"⟩

/-- A world declaring JSON but answering a malformed body. -/
def badJsonWorld : String → Response :=
  fun _ => ⟨true, 200, some "application/json", "\x7bnot valid"⟩

/-- A world answering every request with an empty text body, a falsy
value once stored. -/
def emptyBodyWorld : String → Response :=
  fun _ => ⟨true, 200, some "text/html", ""⟩

/-- The world serving the race call that resolves last. -/
def lateWorld : String → Response :=
  fun _ => ⟨true, 200, some "text/html", "late"⟩

/-- The world serving the race call that resolves first. -/
def earlyWorld : String → Response :=
  fun _ => ⟨true, 200, some "text/html", "early"⟩

/-! ### Helper lemmas -/

/-- A truthy stored entry makes load answer from the cache. -/
theorem load_cached_hit (w : String → Response) (c : Cache) (url : String) (e : Entry)
    (h1 : cacheGet c url = some e) (h2 : e.truthy = true) :
    load w c url = ⟨.ok e, c, false⟩ := by
  simp [load, cachedTruthy, h1, h2]

/-- An absent entry fails the truthiness guard. -/
theorem cachedTruthy_none_of_none (c : Cache) (url : String)
    (h : cacheGet c url = none) : cachedTruthy c url = none := by
  simp [cachedTruthy, h]

/-- Once the cache holds a truthy entry for the url, any run of calls is
answered from the cache: same results, unchanged cache, no retrievals. -/
theorem loadN_all_hits (w : String → Response) (url : String) (e : Entry)
    (he : e.truthy = true) :
    ∀ (n : Nat) (c : Cache), cacheGet c url = some e →
      loadN w url c n = (List.replicate n (Except.ok e), c, 0) := by
  intro n
  induction n with
  | zero => intro c _; rfl
  | succ n ih =>
    intro c hc
    have hl := load_cached_hit w c url e hc he
    simp [loadN, hl, ih c hc, List.replicate]

/-! ### The claims -/

/-- C1, counterexample: the guard if (cache[url]) tests JavaScript
truthiness, so a stored falsy entry such as the empty text payload is
not served from the cache: with the empty text entry stored under the
locator, a call still issues a retrieval; and two sequential calls whose
first succeeds and stores the empty text issue two retrievals in total,
not one. -/
theorem falsy_entry_refetches :
    (load emptyBodyWorld [("u", Entry.text "")] "u").fetched = true ∧
    (load emptyBodyWorld ([] : Cache) "u").result = .ok (.text "") ∧
    (loadN emptyBodyWorld "u" [] 2).2.2 = 2 :=
  ⟨rfl, rfl, rfl⟩

/-- C1, amended: for every locator cached with a truthy entry E, get
returns E with no retrieval and leaves the cache unchanged; and after a
first success that stores a truthy entry, n further sequential calls all
return the identical entry with one retrieval in total. -/
theorem truthy_cache_hit_idempotent :
    (∀ (w : String → Response) (c : Cache) (url : String) (e : Entry),
        cacheGet c url = some e → e.truthy = true →
        (load w c url).result = .ok e ∧ (load w c url).fetched = false ∧
        (load w c url).cache = c) ∧
    (∀ (w : String → Response) (c : Cache) (url : String) (e : Entry) (n : Nat),
        cacheGet c url = none → decodeResp url (w url) = .ok e → e.truthy = true →
        loadN w url c (n + 1) =
          (List.replicate (n + 1) (Except.ok e), (url, e) :: c, 1)) := by
  constructor
  · intro w c url e h1 h2
    simp [load_cached_hit w c url e h1 h2]
  · intro w c url e n h0 hd ht
    have hct := cachedTruthy_none_of_none c url h0
    have hl : load w c url = ⟨.ok e, (url, e) :: c, true⟩ := by
      simp [load, hct, loadResolve, hd]
    have hget : cacheGet ((url, e) :: c) url = some e := by
      simp [cacheGet, List.lookup]
    simp [loadN, hl, loadN_all_hits w url e ht n ((url, e) :: c) hget, List.replicate]

/-- C1, witness for the amended claim: a truthy text entry is served
from the cache unchanged, and three sequential calls against the HTML
world return the identical entry three times with one retrieval. -/
theorem truthy_cache_hit_idempotent_witness :
    ((load htmlWorld [("u", Entry.text "hi")] "u").result = .ok (.text "hi") ∧
      (load htmlWorld [("u", Entry.text "hi")] "u").fetched = false ∧
      (load htmlWorld [("u", Entry.text "hi")] "u").cache = [("u", Entry.text "hi")]) ∧
    loadN htmlWorld "u" [] 3 =
      (List.replicate 3 (Except.ok (Entry.text "<p>hi</p>")),
        [("u", Entry.text "<p>hi</p>")], 1) :=
  ⟨truthy_cache_hit_idempotent.1 htmlWorld [("u", Entry.text "hi")] "u"
      (Entry.text "hi") rfl rfl,
   truthy_cache_hit_idempotent.2 htmlWorld [] "u" (Entry.text "<p>hi</p>") 2 rfl rfl rfl⟩

/-- C2: when a call to load fails, the cache it leaves is exactly the
cache it was given (no entry, partial or otherwise, is stored), and a
subsequent call for the same locator against any world issues the
retrieval again. -/
theorem failure_leaves_cache_unchanged :
    ∀ (w : String → Response) (c : Cache) (url : String) (err : LoadError),
      (load w c url).result = .error err →
      (load w c url).cache = c ∧
      ∀ w2 : String → Response, (load w2 c url).fetched = true := by
  intro w c url err hres
  cases hct : cachedTruthy c url with
  | some e => simp [load, hct] at hres
  | none =>
    constructor
    · cases hdr : decodeResp url (w url) with
      | ok e => simp [load, hct, loadResolve, hdr] at hres
      | error err2 => simp [load, hct, loadResolve, hdr]
    · intro w2
      simp [load, hct]

/-- C2, witness: a 404 response leaves the empty cache empty, and the
retry against a healthy world issues a retrieval. -/
theorem failure_leaves_cache_unchanged_witness :
    (load world404 [] "data/x.json").cache = [] ∧
    (load htmlWorld ([] : Cache) "data/x.json").fetched = true :=
  ⟨(failure_leaves_cache_unchanged world404 [] "data/x.json"
      (.retrievalError "data/x.json" 404) rfl).1,
   (failure_leaves_cache_unchanged world404 [] "data/x.json"
      (.retrievalError "data/x.json" 404) rfl).2 htmlWorld⟩

/-- C3: an uncached locator whose retrieval succeeds is decoded by the
declared content type: when it includes json and the body parses to v,
the call returns the structured value v and stores it; otherwise the
call returns the raw body text unmodified and stores it. -/
theorem decode_by_content_type :
    ∀ (w : String → Response) (c : Cache) (url : String),
      cachedTruthy c url = none → (w url).ok = true →
      ((∀ v : JsonValue,
          stringIncludes (headerContentType (w url)) "json" = true →
          jsonParse (w url).body = some v →
          (load w c url).result = .ok (.structured v) ∧
          (load w c url).cache = (url, Entry.structured v) :: c) ∧
       (stringIncludes (headerContentType (w url)) "json" = false →
          (load w c url).result = .ok (.text (w url).body) ∧
          (load w c url).cache = (url, Entry.text (w url).body) :: c)) := by
  intro w c url hct hok
  constructor
  · intro v hj hp
    constructor <;> simp [load, hct, loadResolve, decodeResp, hok, hj, hp]
  · intro hj
    constructor <;> simp [load, hct, loadResolve, decodeResp, hok, hj]

/-- C3, witness: the JSON object body mapping a to 1 under a json
content type yields the structured map, and the paragraph body under a
text content type yields the raw text. -/
theorem decode_by_content_type_witness :
    (load jsonWorld [] "data/a.json").result =
      .ok (.structured (.obj [("a", JsonValue.num 1)])) ∧
    (load htmlWorld ([] : Cache) "data/a.html").result = .ok (.text "<p>hi</p>") :=
  ⟨((decode_by_content_type jsonWorld [] "data/a.json" rfl rfl).1
      (.obj [("a", JsonValue.num 1)]) rfl rfl).1,
   ((decode_by_content_type htmlWorld [] "data/a.html" rfl rfl).2 rfl).1⟩

/-- C4: a non-ok response makes load fail with the retrieval error
carrying the locator and the status, and the call returns no value. -/
theorem non_ok_status_retrieval_error :
    ∀ (w : String → Response) (c : Cache) (url : String),
      cachedTruthy c url = none → (w url).ok = false →
      (load w c url).result = .error (.retrievalError url (w url).status) ∧
      ∀ e : Entry, (load w c url).result ≠ .ok e := by
  intro w c url hct hok
  have h1 : (load w c url).result = .error (.retrievalError url (w url).status) := by
    simp [load, hct, loadResolve, decodeResp, hok]
  refine ⟨h1, fun e he => ?_⟩
  rw [h1] at he
  exact Except.noConfusion he

/-- C4, witness: the 404 world makes load fail with the retrieval error
carrying the locator and 404, returning no entry. -/
theorem non_ok_status_retrieval_error_witness :
    (load world404 [] "u").result = .error (.retrievalError "u" 404) ∧
    (load world404 ([] : Cache) "u").result ≠ .ok (.text "") :=
  ⟨(non_ok_status_retrieval_error world404 [] "u" rfl rfl).1,
   (non_ok_status_retrieval_error world404 [] "u" rfl rfl).2 (.text "")⟩

/-- C5: a response declaring a json content type whose body does not
parse makes load fail with the decode error, a kind distinct from every
retrieval error. -/
theorem malformed_json_decode_error :
    ∀ (w : String → Response) (c : Cache) (url : String),
      cachedTruthy c url = none → (w url).ok = true →
      stringIncludes (headerContentType (w url)) "json" = true →
      jsonParse (w url).body = none →
      (load w c url).result = .error (.decodeError url) ∧
      ∀ (u2 : String) (s : Nat), LoadError.decodeError url ≠ .retrievalError u2 s := by
  intro w c url hct hok hj hp
  refine ⟨by simp [load, hct, loadResolve, decodeResp, hok, hj, hp], ?_⟩
  intro u2 s h
  exact LoadError.noConfusion h

/-- C5, witness: the malformed body declared as json fails with the
decode error, which differs from the retrieval error at the same
locator. -/
theorem malformed_json_decode_error_witness :
    (load badJsonWorld [] "u").result = .error (.decodeError "u") ∧
    LoadError.decodeError "u" ≠ .retrievalError "u" 404 :=
  ⟨(malformed_json_decode_error badJsonWorld [] "u" rfl rfl rfl rfl).1,
   (malformed_json_decode_error badJsonWorld [] "u" rfl rfl rfl rfl).2 "u" 404⟩

/-- C6: a locator with no cache entry triggers a retrieval, and on
success the call pushes the decoded entry for that locator onto the
cache, where a lookup now finds it. -/
theorem uncached_fetches_once_and_stores :
    ∀ (w : String → Response) (c : Cache) (url : String),
      cacheGet c url = none →
      (load w c url).fetched = true ∧
      ∀ e : Entry, (load w c url).result = .ok e →
        (load w c url).cache = (url, e) :: c ∧
        cacheGet (load w c url).cache url = some e := by
  intro w c url h0
  have hct := cachedTruthy_none_of_none c url h0
  refine ⟨by simp [load, hct], ?_⟩
  intro e he
  cases hdr : decodeResp url (w url) with
  | ok e2 =>
    have h2 : e2 = e := by
      simp [load, hct, loadResolve, hdr] at he
      exact he
    subst h2
    constructor
    · simp [load, hct, loadResolve, hdr]
    · simp [load, hct, loadResolve, hdr, cacheGet, List.lookup]
  | error err =>
    simp [load, hct, loadResolve, hdr] at he

/-- C6, witness: the first request against the JSON world fetches and
stores the decoded structured entry under the locator. -/
theorem uncached_fetches_once_and_stores_witness :
    (load jsonWorld [] "u").fetched = true ∧
    (load jsonWorld ([] : Cache) "u").cache =
      [("u", Entry.structured (.obj [("a", JsonValue.num 1)]))] :=
  ⟨(uncached_fetches_once_and_stores jsonWorld [] "u" rfl).1,
   ((uncached_fetches_once_and_stores jsonWorld [] "u" rfl).2
      (Entry.structured (.obj [("a", JsonValue.num 1)])) rfl).1⟩

/-- C7: two simultaneous first calls on an uncached locator each issue
their own retrieval; with call B resolving first and call A last, each
call returns its own decoded entry and the cache is left holding the
entry of A, the last to resolve. -/
theorem race_two_fetches_last_write_wins :
    ∀ (wA wB : String → Response) (c : Cache) (url : String) (eA eB : Entry),
      cachedTruthy c url = none →
      decodeResp url (wA url) = .ok eA →
      decodeResp url (wB url) = .ok eB →
      (raceFirstCalls wA wB c url).fetchCount = 2 ∧
      (raceFirstCalls wA wB c url).retA = .ok eA ∧
      (raceFirstCalls wA wB c url).retB = .ok eB ∧
      cacheGet (raceFirstCalls wA wB c url).cache url = some eA := by
  intro wA wB c url eA eB hct hA hB
  refine ⟨?_, ?_, ?_, ?_⟩ <;>
    simp [raceFirstCalls, hct, loadResolve, hA, hB, cacheGet, List.lookup]

/-- C7, witness: two racing first calls fetch twice; the first-resolving
call returns the early entry, which differs from the late entry the
cache is left holding. -/
theorem race_two_fetches_last_write_wins_witness :
    (raceFirstCalls lateWorld earlyWorld [] "u").fetchCount = 2 ∧
    (raceFirstCalls lateWorld earlyWorld [] "u").retA = .ok (.text "late") ∧
    (raceFirstCalls lateWorld earlyWorld ([] : Cache) "u").retB = .ok (.text "early") ∧
    cacheGet (raceFirstCalls lateWorld earlyWorld [] "u").cache "u" =
      some (.text "late") ∧
    Entry.text "early" ≠ Entry.text "late" :=
  ⟨(race_two_fetches_last_write_wins lateWorld earlyWorld [] "u"
      (.text "late") (.text "early") rfl rfl rfl).1,
   (race_two_fetches_last_write_wins lateWorld earlyWorld [] "u"
      (.text "late") (.text "early") rfl rfl rfl).2.1,
   (race_two_fetches_last_write_wins lateWorld earlyWorld [] "u"
      (.text "late") (.text "early") rfl rfl rfl).2.2.1,
   (race_two_fetches_last_write_wins lateWorld earlyWorld [] "u"
      (.text "late") (.text "early") rfl rfl rfl).2.2.2,
   by intro h; injection h with h2; exact absurd h2 (by decide)⟩

/-- C8: every convenience accessor of DataLoader equals load applied to
the locator it constructs, for every world, cache, url and week
identifier. -/
theorem accessors_are_wrappers :
    ∀ (w : String → Response) (c : Cache) (url weekId : String),
      loadJSON w c url = load w c url ∧
      loadHTML w c url = load w c url ∧
      getRankingsIndex w c = load w c "data/rankings.json" ∧
      getOwners w c = load w c "data/owners.json" ∧
      getWeekData w c weekId = load w c ("data/" ++ weekId ++ ".json") ∧
      getWeekHTML w c weekId = load w c ("data/" ++ weekId ++ ".html") ∧
      getLookback w c = load w c "data/lookback.json" ∧
      getLookbackHTML w c = load w c "data/lookback_content.html" := by
  intro w c url weekId
  exact ⟨rfl, rfl, rfl, rfl, rfl, rfl, rfl, rfl⟩

/-- C9: loadJSON and loadHTML are the same function, and decoding is
decided only by the declared content type: loadJSON returns raw text on
a text content type and loadHTML returns a parsed structured value on a
json one. -/
theorem loadJSON_eq_loadHTML :
    loadJSON = loadHTML ∧
    (loadJSON htmlWorld [] "u").result = .ok (.text "<p>hi</p>") ∧
    (loadHTML jsonWorld [] "u").result =
      .ok (.structured (.obj [("a", JsonValue.num 1)])) :=
  ⟨rfl, rfl, rfl⟩

/-- C10: a call to load for one locator never changes what the cache
holds under any other locator, whether the call hits, succeeds or
fails. -/
theorem load_preserves_other_keys :
    ∀ (w : String → Response) (c : Cache) (url url2 : String),
      url2 ≠ url →
      cacheGet (load w c url).cache url2 = cacheGet c url2 := by
  intro w c url url2 h
  have hb : (url2 == url) = false := beq_eq_false_iff_ne.mpr h
  cases hct : cachedTruthy c url with
  | some e => simp [load, hct]
  | none =>
    cases hdr : decodeResp url (w url) with
    | ok e => simp [load, hct, loadResolve, hdr, cacheGet, List.lookup, hb]
    | error err => simp [load, hct, loadResolve, hdr]

/-- C10, witness: a successful call for one locator leaves the entry
stored under a different locator untouched. -/
theorem load_preserves_other_keys_witness :
    ("v" : String) ≠ "u" ∧
    cacheGet (load jsonWorld [("v", Entry.text "x")] "u").cache "v" =
      cacheGet [("v", Entry.text "x")] "v" :=
  ⟨by decide,
   load_preserves_other_keys jsonWorld [("v", Entry.text "x")] "u" "v" (by decide)⟩

end FetchCache
